import Mathlib

/-!
Shallow embedding of `crizzle/services/base/service.py` (class `Service`):
the credential manager (`__init__`, `read_key_file`), the parameter pipeline
(`get_default_params`, `get_final_params`), the request pipeline (`request`
and the four verb wrappers `get`/`post`/`put`/`delete`), and the JSON number
hook (`_json_number_hook`).

Python dicts are modelled as association lists (`Params`) whose observable
behaviour is `keyLookup`; `dict.update` is modelled entry by entry by
`dictSet`/`dictUpdate`, matching CPython's semantics (an existing key keeps
its position and gets the new value, a new key is appended).  A key file is
modelled as `Option (List String)`: `none` is an absent source, `some lines`
is a present file split into its lines; `readline` past the end of the file
yields the empty string, exactly as Python's `file.readline()` returns
`b''` at EOF.  Python's `bytes.strip()` is modelled by `pyStrip`.
-/

/-- A Python dict of request parameters, as an association list. -/
abbrev Params := List (String × String)

/-- Observation function on a `Params` dict: the value stored at key `k`
(first entry with that key), or `none` when the key is absent. -/
def keyLookup : Params → String → Option String
  | [], _ => none
  | kv :: rest, k => if kv.1 = k then some kv.2 else keyLookup rest k

/-- One step of Python's `dict.update`: `d[k] = v`.  If `k` is already
present, the existing slot keeps its position and receives the new value;
otherwise `(k, v)` is appended at the end, as in CPython. -/
def dictSet : Params → String → String → Params
  | [], k, v => [(k, v)]
  | kv :: rest, k, v => if kv.1 = k then (k, v) :: rest else kv :: dictSet rest k v

/-- Python's `d.update(upd)`: every entry of `upd` is written into `d` in
order. -/
def dictUpdate (d upd : Params) : Params :=
  upd.foldl (fun acc kv => dictSet acc kv.1 kv.2) d

/-- `Service.get_default_params` as implemented in the base class: returns
a fresh empty dict (`return {}`, `service.py` line 53). -/
def get_default_params_base : Params := []

/-- `Service.get_final_params` (`service.py` lines 55-70).  The result of
the polymorphic `self.get_default_params(**kwargs)` dispatch is passed in
as `default_params` (the base class supplies `get_default_params_base`).
`ctx_params` models the caller's keyword context: the outer `Option` is
`'params' in kwargs`, the inner one is the `params is not None` test. -/
def get_final_params (default_params : Params) (ctx_params : Option (Option Params)) : Params :=
  match ctx_params with
  | some (some p) => dictUpdate default_params p
  | _ => default_params

/-- Python's `bytes.strip()` with no argument: removes leading and
trailing whitespace.  Implemented structurally on the character list so
that the kernel can evaluate it. -/
def pyStrip (s : String) : String :=
  ⟨((s.data.dropWhile Char.isWhitespace).reverse.dropWhile Char.isWhitespace).reverse⟩

/-- Python's `str.upper()`, restricted to ASCII (the only verbs fed to it
are `get`/`post`/`put`/`delete`). -/
def pyUpper (s : String) : String :=
  ⟨s.data.map Char.toUpper⟩

/-- The mutable state of a `Service` instance (`service.py` lines 12-20):
`name`, `root`, `key_loaded`, `api_key`, `secret_key`,
`default_api_version`.  The credential fields hold `none` until assigned
(they never are, see `Service.read_key_file`). -/
structure Service where
  name : String
  root : String
  key_loaded : Bool
  api_key : Option String
  secret_key : Option String
  default_api_version : Option String
deriving DecidableEq

/-- `Service.read_key_file` (`service.py` lines 72-90).  For a present
source it reads the first two lines (`file.readline()` yields `""` past
the end of the file), strips them, sets `key_loaded = True` and returns
the pair; it does NOT assign `self.api_key` or `self.secret_key` — the
function body only binds the local variables `api_key` and `secret_key`.
For an absent source it returns `(None, None)` and leaves the state
untouched. -/
def Service.read_key_file (s : Service) (key_file : Option (List String)) :
    Service × Option String × Option String :=
  match key_file with
  | some lines =>
      let api_key := pyStrip (lines.getD 0 "")
      let secret_key := pyStrip (lines.getD 1 "")
      ({ s with key_loaded := true }, some api_key, some secret_key)
  | none => (s, none, none)

/-- `Service.__init__` (`service.py` lines 12-20): fields are initialised
with `key_loaded = False` and `api_key = secret_key = None`; when a key
file is given, `self.read_key_file(key_file)` is called and its return
value is discarded (only its state effect is kept). -/
def Service.init (name root : String) (key_file : Option (List String))
    (default_api_version : Option String) : Service :=
  let s : Service :=
    { name := name, root := root, key_loaded := false,
      api_key := none, secret_key := none,
      default_api_version := default_api_version }
  match key_file with
  | some lines => (s.read_key_file (some lines)).1
  | none => s

/-- The `requests.Request` object assembled by `Service.request`
(`service.py` lines 186-187 and 194): it is created with `method = None`
and the method is only assigned when the verb passes the assertion. -/
structure RequestDescriptor where
  method : Option String
  url : String
  params : Params
  data : Option String
  headers : Option Params
deriving DecidableEq

/-- The observable calls `Service.request` makes on its collaborators, in
order: the abstract `sign_request` and `add_api_key` hooks and the final
`session.send(prepped)` transport dispatch. -/
inductive HookEvent
  | signRequest
  | addApiKey
  | dispatch
deriving DecidableEq

/-- The tuple of the assertion on `service.py` line 193:
`('get', 'post', 'put', 'delete')`. -/
def httpVerbs : List String := ["get", "post", "put", "delete"]

/-- Python's `"{}".format(x)` applied to an optional string: `None` is
rendered as the four characters `None`. -/
def pyFormatOpt : Option String → String
  | some v => v
  | none => "None"

/-- `Service.request` (`service.py` lines 164-203).  `default_params` is
the result of the polymorphic `self.get_default_params(**arguments)`
dispatch (the base class supplies `get_default_params_base`).  Returned
are the client state after the call, the assembled request object as it
is handed to the hooks, and the ordered trace of hook/transport calls.
The body mirrors the source: `api_version` falls back to
`self.default_api_version`; the URL is
`self.root + "/{}/".format(api_version) + endpoint`; the assertion on the
verb only logs on failure, leaving `method = None`, and the request is
prepared and sent regardless; `sign_request` runs only when `sign` is
truthy, `add_api_key` always runs, both before `session.send`. -/
def Service.request (s : Service) (request_type endpoint : String)
    (params : Option Params) (api_version : Option String)
    (data : Option String) (headers : Option Params)
    (sign : Bool) (default_params : Params) :
    Service × RequestDescriptor × List HookEvent :=
  let version : Option String :=
    match api_version with
    | none => s.default_api_version
    | some v => some v
  let final_params := get_final_params default_params (some params)
  let method : Option String :=
    if request_type ∈ httpVerbs then some (pyUpper request_type) else none
  let descriptor : RequestDescriptor :=
    { method := method,
      url := s.root ++ "/" ++ pyFormatOpt version ++ "/" ++ endpoint,
      params := final_params, data := data, headers := headers }
  let events : List HookEvent :=
    (if sign then [HookEvent.signRequest] else []) ++ [HookEvent.addApiKey, HookEvent.dispatch]
  (s, descriptor, events)

/-- `Service.get` (`service.py` lines 205-208). -/
def Service.get (s : Service) (endpoint : String) (params : Option Params)
    (api_version : Option String) (data : Option String) (headers : Option Params)
    (sign : Bool) (default_params : Params) :
    Service × RequestDescriptor × List HookEvent :=
  s.request "get" endpoint params api_version data headers sign default_params

/-- `Service.post` (`service.py` lines 210-213). -/
def Service.post (s : Service) (endpoint : String) (params : Option Params)
    (api_version : Option String) (data : Option String) (headers : Option Params)
    (sign : Bool) (default_params : Params) :
    Service × RequestDescriptor × List HookEvent :=
  s.request "post" endpoint params api_version data headers sign default_params

/-- `Service.put` (`service.py` lines 215-218). -/
def Service.put (s : Service) (endpoint : String) (params : Option Params)
    (api_version : Option String) (data : Option String) (headers : Option Params)
    (sign : Bool) (default_params : Params) :
    Service × RequestDescriptor × List HookEvent :=
  s.request "put" endpoint params api_version data headers sign default_params

/-- `Service.delete` (`service.py` lines 220-223). -/
def Service.delete (s : Service) (endpoint : String) (params : Option Params)
    (api_version : Option String) (data : Option String) (headers : Option Params)
    (sign : Bool) (default_params : Params) :
    Service × RequestDescriptor × List HookEvent :=
  s.request "delete" endpoint params api_version data headers sign default_params

/-- A decoded JSON/Python value as handled by `Service._json_number_hook`
(`service.py` lines 92-119).  Python floats are modelled as exact
rationals: the hook only asks a float whether `f.is_integer()` holds and
truncates it with `int(f)`, both of which are exact on the values the
model covers. -/
inductive PyVal
  | pyInt (i : Int)
  | pyFloat (q : Rat)
  | pyBool (b : Bool)
  | pyStr (s : String)
  | pyNone
  | pyList (xs : List PyVal)
  | pyDict (kvs : List (String × PyVal))

/-- Whether the value is one of the two container kinds the hook recurses
into (`isinstance(v, (list, dict))`, `service.py` lines 96 and 109). -/
def PyVal.isContainer : PyVal → Bool
  | PyVal.pyList _ => true
  | PyVal.pyDict _ => true
  | _ => false

/-- Numeric value of a list of decimal digit characters. -/
def digitsVal (cs : List Char) : Nat :=
  cs.foldl (fun acc c => 10 * acc + (c.toNat - 48)) 0

/-- Models Python's built-in `float()` on a string, restricted to plain
decimal literals: optional surrounding whitespace, an optional sign, an
integer part and an optional fractional part (exponents, `inf`/`nan` and
digit underscores are outside the model).  Returns `none` where `float()`
raises `ValueError`. -/
def strToRat (s : String) : Option Rat :=
  let core : List Char → Option Rat := fun ds =>
    let intPart := ds.takeWhile Char.isDigit
    let rest := ds.dropWhile Char.isDigit
    match rest with
    | [] => if intPart.isEmpty then none else some ((digitsVal intPart : Nat) : Rat)
    | '.' :: frac =>
        if frac.all Char.isDigit && !(intPart.isEmpty && frac.isEmpty) then
          some (((digitsVal (intPart ++ frac) : Nat) : Rat) / ((10 : Rat) ^ frac.length))
        else none
    | _ => none
  match (pyStrip s).data with
  | '-' :: ds => (core ds).map (fun q => -q)
  | '+' :: ds => core ds
  | ds => core ds

/-- Models Python's built-in `float(v)` on a non-container value as used
in the `try` blocks of `_json_number_hook`: numbers and booleans convert,
strings parse per `strToRat`, `None` raises `TypeError` (`none` here). -/
def pyFloatParse : PyVal → Option Rat
  | PyVal.pyInt i => some ((i : Int) : Rat)
  | PyVal.pyFloat q => some q
  | PyVal.pyBool b => some (if b then 1 else 0)
  | PyVal.pyStr s => strToRat s
  | PyVal.pyNone => none
  | PyVal.pyList _ => none
  | PyVal.pyDict _ => none

/-- The scalar branch of `_json_number_hook` (`service.py` lines 99-105
and 112-118): `f = float(v)`; if `f.is_integer()` then `f = int(f)`;
`inp[k] = f`; on `ValueError`/`TypeError` the value is left unchanged. -/
def scalarHook (v : PyVal) : PyVal :=
  match pyFloatParse v with
  | some q => if q.den = 1 then PyVal.pyInt q.num else PyVal.pyFloat q
  | none => v

mutual
/-- `Service._json_number_hook` (`service.py` lines 92-119): recurses into
lists and dicts, converting each nested scalar; a non-container argument
falls through both `isinstance` checks and is returned unchanged. -/
def jsonHook : PyVal → PyVal
  | PyVal.pyList xs => PyVal.pyList (jsonHookList xs)
  | PyVal.pyDict kvs => PyVal.pyDict (jsonHookDict kvs)
  | v => v

/-- The per-element body of the hook's loops: a container element is
recursed into (`inp[k] = self._json_number_hook(v)`), any other element
goes through the float-conversion branch. -/
def jsonHookElem : PyVal → PyVal
  | PyVal.pyList xs => PyVal.pyList (jsonHookList xs)
  | PyVal.pyDict kvs => PyVal.pyDict (jsonHookDict kvs)
  | v => scalarHook v

/-- The `for k, v in enumerate(inp)` loop over a list. -/
def jsonHookList : List PyVal → List PyVal
  | [] => []
  | v :: rest => jsonHookElem v :: jsonHookList rest

/-- The `for k, v in inp.items()` loop over a dict: keys are kept, each
value is transformed in place. -/
def jsonHookDict : List (String × PyVal) → List (String × PyVal)
  | [] => []
  | (k, v) :: rest => (k, jsonHookElem v) :: jsonHookDict rest
end


/-- Lookup after a single Python `d[k] = v` store: key `k` now maps to
`v`, every other key is untouched. -/
theorem keyLookup_dictSet (d : Params) (k v k' : String) :
    keyLookup (dictSet d k v) k' = if k' = k then some v else keyLookup d k' := by
  induction d with
  | nil =>
    by_cases h : k' = k
    · simp [dictSet, keyLookup, h]
    · simp [dictSet, keyLookup, h, Ne.symm h]
  | cons kv rest ih =>
    by_cases hk' : k' = k
    · subst hk'
      by_cases hk : kv.1 = k'
      · simp [dictSet, keyLookup, hk]
      · simp [dictSet, keyLookup, hk, ih]
    · by_cases hk : kv.1 = k
      · have hkv : ¬ kv.1 = k' := fun hh => hk' (hh ▸ hk)
        simp [dictSet, keyLookup, hk, hk', Ne.symm hk', hkv]
      · simp [dictSet, keyLookup, hk, hk', ih]

/-- A key absent from a dict's key list looks up to `none`. -/
theorem keyLookup_eq_none_of_not_mem (d : Params) (k : String)
    (h : k ∉ d.map Prod.fst) : keyLookup d k = none := by
  induction d with
  | nil => rfl
  | cons kv rest ih =>
    rw [List.map_cons, List.mem_cons] at h
    push_neg at h
    have hkv : ¬ kv.1 = k := fun hh => h.1 hh.symm
    simp [keyLookup, hkv, ih h.2]

/-- Lookup through Python's `d.update(upd)` for an `upd` without duplicate
keys: the update's value wins where present, otherwise the original dict's
value is kept. -/
theorem keyLookup_dictUpdate (upd d : Params) (k : String)
    (h : (upd.map Prod.fst).Nodup) :
    keyLookup (dictUpdate d upd) k
      = match keyLookup upd k with
        | some v => some v
        | none => keyLookup d k := by
  induction upd generalizing d with
  | nil => simp [dictUpdate, keyLookup]
  | cons a rest ih =>
    rw [List.map_cons, List.nodup_cons] at h
    have hstep : dictUpdate d (a :: rest) = dictUpdate (dictSet d a.1 a.2) rest := rfl
    rw [hstep, ih (dictSet d a.1 a.2) h.2]
    by_cases hk : k = a.1
    · have hrest : keyLookup rest a.1 = none :=
        keyLookup_eq_none_of_not_mem rest a.1 h.1
      simp [keyLookup, hrest, keyLookup_dictSet, hk]
    · have hka : ¬ a.1 = k := fun hh => hk hh.symm
      simp [keyLookup, keyLookup_dictSet, hk, hka]

/-- The list loop of the hook transforms the list elementwise. -/
theorem jsonHookList_eq_map (xs : List PyVal) :
    jsonHookList xs = xs.map jsonHookElem := by
  induction xs with
  | nil => simp [jsonHookList]
  | cons v rest ih => simp [jsonHookList, ih]

/-- The dict loop of the hook keeps every key and transforms its value. -/
theorem jsonHookDict_eq_map (kvs : List (String × PyVal)) :
    jsonHookDict kvs = kvs.map (fun kv => (kv.1, jsonHookElem kv.2)) := by
  induction kvs with
  | nil => simp [jsonHookDict]
  | cons kv rest ih =>
    obtain ⟨k, v⟩ := kv
    simp [jsonHookDict, ih]

/-- On a non-container element the hook body is the scalar conversion. -/
theorem jsonHookElem_eq_scalarHook (v : PyVal) (hv : v.isContainer = false) :
    jsonHookElem v = scalarHook v := by
  cases v <;> simp_all [PyVal.isContainer, jsonHookElem]

/-- Claim C1, settled as a code bug, evaluated at the failing input: a
client constructed from the two-line key source
`["PUBKEY123", "SECRET456"]` ends with `key_loaded = true`, but its stored
credentials are still `none` — `read_key_file` only returns the trimmed
pair (last conjunct) and never assigns `self.api_key`/`self.secret_key`,
contradicting its own docstring and the claim that the trimmed file
contents are stored on the owning client. -/
theorem C1_key_storage_bug :
    (Service.init "svc" "https://api.example.com" (some ["PUBKEY123", "SECRET456"]) none).key_loaded = true
    ∧ (Service.init "svc" "https://api.example.com" (some ["PUBKEY123", "SECRET456"]) none).api_key = none
    ∧ (Service.init "svc" "https://api.example.com" (some ["PUBKEY123", "SECRET456"]) none).secret_key = none
    ∧ (Service.read_key_file (Service.init "svc" "https://api.example.com" none none)
        (some [" PUBKEY123 ", "SECRET456"])).2
      = (some "PUBKEY123", some "SECRET456") :=
  ⟨rfl, rfl, rfl, rfl⟩

/-- Claim C2 counterexample: on the present one-line key source
`["ONLYKEY"]`, `read_key_file` does not fail at all — it returns the pair
`(some "ONLYKEY", some "")` and sets `key_loaded = true`, where the claim
requires a `MalformedKeySource` failure leaving `key_loaded = false`. -/
theorem C2_counterexample :
    (Service.read_key_file (Service.init "svc" "https://r" none none) (some ["ONLYKEY"])).1.key_loaded = true
    ∧ (Service.read_key_file (Service.init "svc" "https://r" none none) (some ["ONLYKEY"])).2
      = (some "ONLYKEY", some "") :=
  ⟨rfl, rfl⟩

/-- Claim C2 as amended: for every present key source with fewer than two
lines (zero lines or one line), `read_key_file` does not raise: missing
lines read as empty strings, `key_loaded` is set to `true`, the trimmed
available line (or the empty string) is returned for each slot, and the
stored credential attributes are left unchanged (unset). -/
theorem C2_short_source_amended (s : Service) (line : String) :
    (s.read_key_file (some [])).1.key_loaded = true
    ∧ (s.read_key_file (some [])).2 = (some "", some "")
    ∧ (s.read_key_file (some [line])).1.key_loaded = true
    ∧ (s.read_key_file (some [line])).2 = (some (pyStrip line), some "")
    ∧ (s.read_key_file (some [line])).1.api_key = s.api_key
    ∧ (s.read_key_file (some [line])).1.secret_key = s.secret_key :=
  ⟨rfl, rfl, rfl, rfl, rfl, rfl⟩

/-- Claim C3, settled as a code bug, evaluated at the failing input: a
`request` call with the unsupported verb `"patch"` is not surfaced as an
`InvalidMethod` failure before dispatch — the assertion failure is only
logged (`logger.critical`), the request object keeps `method = None`, and
the transport dispatch still happens (it is the final event of the call's
trace). -/
theorem C3_invalid_method_bug :
    ((Service.init "svc" "https://api.example.com" none none).request
      "patch" "orders" none none none none false []).2.1.method = none
    ∧ ((Service.init "svc" "https://api.example.com" none none).request
        "patch" "orders" none none none none false []).2.2.count HookEvent.dispatch = 1
    ∧ ((Service.init "svc" "https://api.example.com" none none).request
        "patch" "orders" none none none none false []).2.2.getLast? = some HookEvent.dispatch :=
  ⟨rfl, rfl, rfl⟩

/-- Claim C4: `get_final_params` returns the dispatched default parameters
overlaid with the caller's explicit `params` when present and non-null —
for every key the merged value is the caller's where the caller binds the
key and the default's otherwise (so caller values win on collision, the
first conjunct instantiated at a shared key) — and collapses to the
defaults when the caller's params are empty, null, or absent.  The
embedding is pure, matching the source: `update` is applied to the dict
freshly returned by `get_default_params`, never to the caller's mapping. -/
theorem C4_final_params (d p : Params) (k : String)
    (hp : (p.map Prod.fst).Nodup) :
    (keyLookup (get_final_params d (some (some p))) k
      = match keyLookup p k with
        | some v => some v
        | none => keyLookup d k)
    ∧ get_final_params d (some (some [])) = d
    ∧ get_final_params d (some none) = d
    ∧ get_final_params d none = d :=
  ⟨keyLookup_dictUpdate p d k hp, rfl, rfl, rfl⟩

/-- Claim C4 witness: the merge theorem applied to concrete dicts with the
colliding key `"a"`, whose merged value is the caller's `"9"`. -/
theorem C4_final_params_witness :
    (([("a", "9")] : Params).map Prod.fst).Nodup
    ∧ ((keyLookup (get_final_params [("a", "1"), ("b", "2")] (some (some [("a", "9")]))) "a"
        = match keyLookup [("a", "9")] "a" with
          | some v => some v
          | none => keyLookup [("a", "1"), ("b", "2")] "a")
      ∧ get_final_params [("a", "1"), ("b", "2")] (some (some [])) = [("a", "1"), ("b", "2")]
      ∧ get_final_params [("a", "1"), ("b", "2")] (some none) = [("a", "1"), ("b", "2")]
      ∧ get_final_params [("a", "1"), ("b", "2")] none = [("a", "1"), ("b", "2")]) :=
  ⟨by decide, C4_final_params [("a", "1"), ("b", "2")] [("a", "9")] "a" (by decide)⟩

/-- Claim C5 counterexample: for a client with no configured default API
version and no explicit version argument, the dispatched URL contains the
literal segment `None` (Python's string formatting of the null value), not
the empty segment the claim requires. -/
theorem C5_counterexample :
    ((Service.init "svc" "https://api.example.com" none none).get
      "ticker" none none none none false []).2.1.url
      = "https://api.example.com/None/ticker"
    ∧ ¬ ((Service.init "svc" "https://api.example.com" none none).get
        "ticker" none none none none false []).2.1.url
        = "https://api.example.com//ticker" :=
  ⟨rfl, by decide⟩

/-- Claim C5 as amended: for every call through each of the four verb
entry points, the dispatched request's method is the verb uppercased and
its URL is `root + "/" + version + "/" + endpoint`, where `version` is the
explicit argument if given, else the client's configured default, else the
literal string `None` (Python's rendering of the null value — not an empty
segment). -/
theorem C5_url_method_amended (s : Service) (ep : String) (p : Option Params)
    (av dt : Option String) (hd : Option Params) (sg : Bool) (dp : Params) :
    ((s.get ep p av dt hd sg dp).2.1.method = some "GET"
      ∧ (s.get ep p av dt hd sg dp).2.1.url
        = s.root ++ "/" ++ pyFormatOpt (match av with | none => s.default_api_version | some v => some v) ++ "/" ++ ep)
    ∧ ((s.post ep p av dt hd sg dp).2.1.method = some "POST"
      ∧ (s.post ep p av dt hd sg dp).2.1.url
        = s.root ++ "/" ++ pyFormatOpt (match av with | none => s.default_api_version | some v => some v) ++ "/" ++ ep)
    ∧ ((s.put ep p av dt hd sg dp).2.1.method = some "PUT"
      ∧ (s.put ep p av dt hd sg dp).2.1.url
        = s.root ++ "/" ++ pyFormatOpt (match av with | none => s.default_api_version | some v => some v) ++ "/" ++ ep)
    ∧ ((s.delete ep p av dt hd sg dp).2.1.method = some "DELETE"
      ∧ (s.delete ep p av dt hd sg dp).2.1.url
        = s.root ++ "/" ++ pyFormatOpt (match av with | none => s.default_api_version | some v => some v) ++ "/" ++ ep) :=
  ⟨⟨rfl, rfl⟩, ⟨rfl, rfl⟩, ⟨rfl, rfl⟩, ⟨rfl, rfl⟩⟩

/-- Claim C6: in every `request` execution the `sign_request` hook is
invoked exactly once when `sign` is true and never when `sign` is false,
the `add_api_key` hook is invoked exactly once regardless of `sign`, and
the transport dispatch is the last event of the trace — so both hooks run
before it. -/
theorem C6_hook_invocations (s : Service) (rt ep : String) (p : Option Params)
    (av dt : Option String) (hd : Option Params) (sg : Bool) (dp : Params) :
    ((s.request rt ep p av dt hd sg dp).2.2.count HookEvent.signRequest = if sg then 1 else 0)
    ∧ (s.request rt ep p av dt hd sg dp).2.2.count HookEvent.addApiKey = 1
    ∧ (s.request rt ep p av dt hd sg dp).2.2.count HookEvent.dispatch = 1
    ∧ (s.request rt ep p av dt hd sg dp).2.2.getLast? = some HookEvent.dispatch := by
  cases sg <;> exact ⟨rfl, rfl, rfl, rfl⟩

/-- Claim C7 counterexample: a client constructed from a present but empty
key source (zero lines) ends with `key_loaded = true` while both stored
credentials are unset — refuting the claimed invariant that `key_loaded`
holds only when both keys are non-empty sequences read from a two-line
source. -/
theorem C7_counterexample :
    (Service.init "svc" "https://r" (some []) none).key_loaded = true
    ∧ (Service.init "svc" "https://r" (some []) none).api_key = none
    ∧ (Service.init "svc" "https://r" (some []) none).secret_key = none :=
  ⟨rfl, rfl, rfl⟩

/-- Claim C7 as amended: for every constructed client, `key_loaded` is
true iff a key source was supplied, regardless of its line count or
content, and the stored credential pair is always unset; a client built
without a key source has `key_loaded = false` and can still issue an
unsigned, unauthenticated call (its trace has no `sign_request` invocation
and ends with the transport dispatch). -/
theorem C7_keyloaded_amended (nm rt : String) (kf : Option (List String))
    (dv : Option String) (ep : String) (dp : Params) :
    (Service.init nm rt kf dv).key_loaded = kf.isSome
    ∧ (Service.init nm rt kf dv).api_key = none
    ∧ (Service.init nm rt kf dv).secret_key = none
    ∧ (Service.init nm rt none dv).key_loaded = false
    ∧ ((Service.init nm rt none dv).get ep none none none none false dp).2.2.count HookEvent.signRequest = 0
    ∧ ((Service.init nm rt none dv).get ep none none none none false dp).2.2.getLast? = some HookEvent.dispatch := by
  refine ⟨?_, ?_, ?_, rfl, rfl, rfl⟩ <;> cases kf <;> rfl

/-- Claim C8 counterexample: on a present but empty key source (zero
lines), `read_key_file` does not return `(none, none)` with `key_loaded`
left false — it returns `(some "", some "")` and sets `key_loaded = true`,
so the "or empty" half of the claim fails on the code. -/
theorem C8_counterexample :
    (Service.read_key_file (Service.init "svc" "https://r" none none) (some [])).1.key_loaded = true
    ∧ (Service.read_key_file (Service.init "svc" "https://r" none none) (some [])).2
      = (some "", some "") :=
  ⟨rfl, rfl⟩

/-- Claim C8 as amended: when the key source is absent (null),
`read_key_file` returns `(none, none)` without error and leaves the whole
client state — in particular `key_loaded` — unchanged. -/
theorem C8_absent_source_amended (s : Service) :
    s.read_key_file none = (s, none, none)
    ∧ (s.read_key_file none).1.key_loaded = s.key_loaded :=
  ⟨rfl, rfl⟩

/-- Claim C9: `request` never mutates the client — the state it returns is
the very state it was called on, field by field (`name`, `root`,
`default_api_version`, `key_loaded`, and the credential pair). -/
theorem C9_request_frame (s : Service) (rt ep : String) (p : Option Params)
    (av dt : Option String) (hd : Option Params) (sg : Bool) (dp : Params) :
    (s.request rt ep p av dt hd sg dp).1 = s
    ∧ (s.request rt ep p av dt hd sg dp).1.name = s.name
    ∧ (s.request rt ep p av dt hd sg dp).1.root = s.root
    ∧ (s.request rt ep p av dt hd sg dp).1.default_api_version = s.default_api_version
    ∧ (s.request rt ep p av dt hd sg dp).1.key_loaded = s.key_loaded
    ∧ (s.request rt ep p av dt hd sg dp).1.api_key = s.api_key
    ∧ (s.request rt ep p av dt hd sg dp).1.secret_key = s.secret_key :=
  ⟨rfl, rfl, rfl, rfl, rfl, rfl, rfl⟩

/-- Claim C10: `_json_number_hook` maps a list to the list of its
transformed elements and a dict to the dict with the same keys and
transformed values (recursing into nested containers, since
`jsonHookElem` is `jsonHook` itself on containers); a non-container value
that parses as a float `q` is replaced by `int(q)` when `q` is integral
and by the float otherwise, and a non-container value that fails to parse
is left unchanged.  In-place mutation of the Python containers is
represented by value identity of the returned container. -/
theorem C10_number_hook (xs : List PyVal) (kvs : List (String × PyVal))
    (v : PyVal) (q : Rat) (hv : v.isContainer = false) (hq : pyFloatParse v = some q)
    (w : PyVal) (hw : w.isContainer = false) (hwn : pyFloatParse w = none) :
    jsonHook (PyVal.pyList xs) = PyVal.pyList (xs.map jsonHookElem)
    ∧ jsonHook (PyVal.pyDict kvs) = PyVal.pyDict (kvs.map (fun kv => (kv.1, jsonHookElem kv.2)))
    ∧ jsonHookElem v = (if q.den = 1 then PyVal.pyInt q.num else PyVal.pyFloat q)
    ∧ jsonHookElem w = w := by
  refine ⟨?_, ?_, ?_, ?_⟩
  · simp [jsonHook, jsonHookList_eq_map]
  · simp [jsonHook, jsonHookDict_eq_map]
  · rw [jsonHookElem_eq_scalarHook v hv]
    simp only [scalarHook, hq]
  · rw [jsonHookElem_eq_scalarHook w hw]
    simp only [scalarHook, hwn]

/-- Claim C10 witness: the hook theorem applied to a concrete list, dict,
an integral parseable scalar (the string `"3"`, converted to the int `3`)
and an unparseable scalar (`None`, left unchanged). -/
theorem C10_number_hook_witness :
    (PyVal.pyStr "3").isContainer = false
    ∧ pyFloatParse (PyVal.pyStr "3") = some ((3 : Nat) : Rat)
    ∧ PyVal.pyNone.isContainer = false
    ∧ pyFloatParse PyVal.pyNone = none
    ∧ (jsonHook (PyVal.pyList [PyVal.pyStr "3"])
        = PyVal.pyList ([PyVal.pyStr "3"].map jsonHookElem)
      ∧ jsonHook (PyVal.pyDict [("a", PyVal.pyBool true)])
        = PyVal.pyDict ([("a", PyVal.pyBool true)].map (fun kv => (kv.1, jsonHookElem kv.2)))
      ∧ jsonHookElem (PyVal.pyStr "3")
        = (if ((3 : Nat) : Rat).den = 1 then PyVal.pyInt ((3 : Nat) : Rat).num
           else PyVal.pyFloat ((3 : Nat) : Rat))
      ∧ jsonHookElem PyVal.pyNone = PyVal.pyNone) :=
  ⟨rfl, rfl, rfl, rfl,
    C10_number_hook [PyVal.pyStr "3"] [("a", PyVal.pyBool true)] (PyVal.pyStr "3")
      ((3 : Nat) : Rat) rfl rfl PyVal.pyNone rfl rfl⟩
